import Mathlib

/-!
Verification of the branch-sync pull-request script (`sync.py`).

The script is a single-pass pipeline: duplicate-PR guard, branch compare,
offline report builder, optional AI summarizer, PR publisher, and a
best-effort label/reviewer annotator.  We give a shallow embedding:

* the pure report builder (`analyze_commits`) is translated directly,
  with Python `KeyError` surfaced via `Except`;
* every HTTP endpoint and the OpenAI client are oracles recorded in an
  `Env` value (each field is the response, or the exception, that the
  corresponding library call would produce on this invocation);
* `main` is a trace semantics: it returns the process outcome (exit 0 or
  a fatal error), the ordered list of network requests issued, and the
  ordered list of lines printed.
-/

namespace Sync

/-- A Python exception, as far as the script can observe one. -/
inductive PyErr where
  /-- `KeyError` from a missing dict key (the key name). -/
  | keyError : String → PyErr
  /-- `IndexError` from indexing an empty list (`splitlines()[0]`). -/
  | indexError : PyErr
  /-- Any exception raised inside a library call (network failure,
      JSON parse failure, OpenAI SDK error ...), by its message. -/
  | exn : String → PyErr
  /-- `raise SystemExit(msg)` with a message (non-zero exit). -/
  | systemExit : String → PyErr
deriving DecidableEq

/-- How the process terminates: exit code 0, or a non-zero exit carrying
the uncaught exception / `SystemExit` message. -/
inductive Outcome where
  | success : Outcome
  | failure : PyErr → Outcome
deriving DecidableEq

/-- One network request issued by the script.  The label and reviewer
requests record their (hardcoded) payloads, which the claims mention. -/
inductive NetCall where
  | getPulls : NetCall
  | getCompare : NetCall
  | aiCompletion : NetCall
  | postCreatePR : NetCall
  | postLabels : List String → NetCall
  | postReviewers : List String → NetCall
deriving DecidableEq

/-- Result of one pipeline step: either the process terminates here
(`halt`, via `exit`/`SystemExit`/uncaught exception) or the pipeline
continues with a value. -/
inductive Flow (α : Type) where
  | halt : Outcome → Flow α
  | cont : α → Flow α

/-- A step's control flow together with the network requests it issued
and the lines it printed. -/
structure StepOut (α : Type) where
  flow : Flow α
  calls : List NetCall
  prints : List String

/-- The observable behaviour of one whole invocation. -/
structure RunResult where
  outcome : Outcome
  calls : List NetCall
  prints : List String

/-- The module-level configuration (environment variables, already past
the required-variable check on lines 20-21 of `sync.py`). -/
structure Config where
  base_branch : String
  head_branch : String
  enable_ai : Bool
  dry_run : Bool

/-- One element of the compare response's `commits` array.  Each field is
`none` when the corresponding key path is absent from the JSON object:
`sha` for `c["sha"]`, `message` for `c["commit"]["message"]`, `author`
for `c["commit"]["author"]["name"]`. -/
structure CommitDict where
  sha : Option String
  message : Option String
  author : Option String
deriving DecidableEq

/-- One element of the compare response's `files` array; `none` models a
missing key (`filename`, `additions`, `deletions`). -/
structure FileDict where
  filename : Option String
  additions : Option Nat
  deletions : Option Nat
deriving DecidableEq

/-- The response to the duplicate-guard query `GET /pulls?...`.
`jsonLen` is the Python `len()` of the value `resp.json()` returns
(a list of open PRs on success; GitHub returns a JSON object for error
responses, whose `len()` is its number of keys); `.error` models
`resp.json()` raising.  The script never reads `status_code`. -/
structure GuardResp where
  status_code : Nat
  jsonLen : Except PyErr Nat

/-- The parsed JSON of the compare response: `data.get("commits", [])`
and `data.get("files", [])`. -/
structure CompareJson where
  commits : List CommitDict
  files : List FileDict

/-- The response to `GET /compare/base...head`; `json` is `.error` when
`resp.json()` raises. -/
structure CompareResp where
  status_code : Nat
  text : String
  json : Except PyErr CompareJson

/-- The parsed JSON of the PR-creation response; `none` models a missing
key. -/
structure CreatePR where
  html_url : Option String
  number : Option Nat

/-- The response to `POST /pulls`. -/
structure CreateResp where
  status_code : Nat
  text : String
  json : Except PyErr CreatePR

/-- The oracle for one invocation: for each external call the script can
make, the response it would receive, or (`.error`) the exception the
library call would raise. -/
structure Env where
  /-- `requests.get` on the pulls query (guard). -/
  guard : Except PyErr GuardResp
  /-- `requests.get` on the compare endpoint. -/
  compare : Except PyErr CompareResp
  /-- `from openai import OpenAI; OpenAI(api_key=...)`: `.error` when the
      SDK import or the client construction raises. -/
  aiClient : Except PyErr Unit
  /-- `client.chat.completions.create(...).choices[0].message.content`:
      the completion text, or the exception the request raises. -/
  aiResp : Except PyErr String
  /-- `requests.post` on the PR-creation endpoint. -/
  create : Except PyErr CreateResp
  /-- `requests.post` on the labels endpoint (its outcome is discarded by
      the bare `except` in `add_labels`). -/
  labels : Except PyErr Unit
  /-- `requests.post` on the reviewers endpoint (outcome discarded). -/
  reviewers : Except PyErr Unit

/-! ### Python string primitives -/

/-- Python `s[:n]`: the first `n` code points of `s`. -/
def py_take (s : String) (n : Nat) : String :=
  String.mk (s.data.take n)

/-- Split a character list at every newline character, Python
`str.split("\x5cn")` style: the result is always non-empty, and empty
input yields one empty chunk. -/
def split_nl : List Char → List (List Char)
  | [] => [[]]
  | c :: rest =>
    let r := split_nl rest
    if c = '\n' then [] :: r
    else (c :: r.headD []) :: r.tail

/-- Python `s.split("\x5cn")`. -/
def lines_of (s : String) : List String :=
  (split_nl s.data).map String.mk

/-- Python `s.split("\x5cn")[0]` (total: `split` never returns an empty
list). -/
def first_line (s : String) : String :=
  (lines_of s).headD ""

/-- Python `s.splitlines()[0]`: raises `IndexError` on the empty string,
otherwise the first line.  (Line terminators other than `"\x5cn"` do not
occur in the data the script handles; we model only `"\x5cn"`.) -/
def splitlines_head (s : String) : Except PyErr String :=
  if s = "" then .error .indexError else .ok (first_line s)

/-- Python `sep.join l`. -/
def py_join (sep : String) : List String → String
  | [] => ""
  | [s] => s
  | s :: rest => s ++ sep ++ py_join sep rest

/-! ### STEP 3: the offline report builder (`analyze_commits`) -/

/-- The body line built for one commit (lines 72-75 of `sync.py`),
accessing `message`, `sha` and `author.name` in the source's order and
raising `KeyError` for whichever required key is missing first. -/
def commit_line_e (c : CommitDict) : Except PyErr String :=
  match c.message with
  | none => .error (.keyError "message")
  | some msg =>
    match c.sha with
    | none => .error (.keyError "sha")
    | some sha =>
      match c.author with
      | none => .error (.keyError "name")
      | some author =>
        .ok ("- `" ++ py_take sha 7 ++ "` – " ++ first_line msg
              ++ " _(by " ++ author ++ ")_")

/-- The body line built for one file (lines 78-81 of `sync.py`):
`filename` is required, `additions`/`deletions` default to 0 via
`dict.get`. -/
def file_line_e (f : FileDict) : Except PyErr String :=
  match f.filename with
  | none => .error (.keyError "filename")
  | some name =>
    .ok ("- `" ++ name ++ "` (+" ++ toString (f.additions.getD 0)
          ++ " / -" ++ toString (f.deletions.getD 0) ++ ")")

/-- The `for c in commits` loop of `analyze_commits`: lines in input
order, aborting at the first commit that raises. -/
def commit_lines : List CommitDict → Except PyErr (List String)
  | [] => .ok []
  | c :: rest =>
    match commit_line_e c with
    | .error e => .error e
    | .ok line =>
      match commit_lines rest with
      | .error e => .error e
      | .ok restLines => .ok (line :: restLines)

/-- The `for f in files` loop of `analyze_commits`. -/
def file_lines : List FileDict → Except PyErr (List String)
  | [] => .ok []
  | f :: rest =>
    match file_line_e f with
    | .error e => .error e
    | .ok line =>
      match file_lines rest with
      | .error e => .error e
      | .ok restLines => .ok (line :: restLines)

/-- `analyze_commits(commits, files)` (lines 63-84 of `sync.py`): the
header lines, the commit lines, the files heading, the file lines and
the footer, joined with newlines.  A missing required key raises
`KeyError` (commits are consumed before files, as in the source). -/
def analyze_commits (cfg : Config) (commits : List CommitDict)
    (files : List FileDict) : Except PyErr String :=
  match commit_lines commits with
  | .error e => .error e
  | .ok cls =>
    match file_lines files with
    | .error e => .error e
    | .ok fls =>
      .ok (py_join "\n"
        (["## 🔍 Missing Fix Analysis\n",
          "**Source:** `" ++ cfg.head_branch ++ "`",
          "**Target:** `" ++ cfg.base_branch ++ "`",
          "**Commits:** " ++ toString commits.length ++ "\n",
          "### 📌 Commit Summary"]
         ++ cls
         ++ ["\n### 🗂 Files Impacted"]
         ++ fls
         ++ ["\n---\n_Auto-generated backport analysis._"]))

/-! ### Spec-side renderer (for the refinement statements)

These definitions follow the specification's wording for the report
format; the theorems compare `analyze_commits` against them. -/

/-- A commit object carries all three required key paths. -/
def wf_commit (c : CommitDict) : Prop :=
  c.sha.isSome ∧ c.message.isSome ∧ c.author.isSome

/-- A file object carries the required `filename` key. -/
def wf_file (f : FileDict) : Prop :=
  f.filename.isSome

instance (c : CommitDict) : Decidable (wf_commit c) := by
  unfold wf_commit; infer_instance

instance (f : FileDict) : Decidable (wf_file f) := by
  unfold wf_file; infer_instance

/-- Spec-side commit line: bullet, backtick-quoted 7-character hash,
en dash, first message line, and the italicised author tag. -/
def spec_commit_line (c : CommitDict) : String :=
  "- `" ++ py_take (c.sha.getD "") 7 ++ "` – "
    ++ first_line (c.message.getD "") ++ " _(by " ++ c.author.getD "" ++ ")_"

/-- Spec-side file line: bullet, backtick-quoted path, and the
`(+additions / -deletions)` counts with absent counts defaulting to 0. -/
def spec_file_line (f : FileDict) : String :=
  "- `" ++ f.filename.getD "" ++ "` (+" ++ toString (f.additions.getD 0)
    ++ " / -" ++ toString (f.deletions.getD 0) ++ ")"

/-- Spec-side report: the ordered sections — header, one line per commit
in input order, files heading, one line per file in input order, and the
fixed footer last. -/
def spec_report_sections (cfg : Config) (commits : List CommitDict)
    (files : List FileDict) : List String :=
  ["## 🔍 Missing Fix Analysis\n",
   "**Source:** `" ++ cfg.head_branch ++ "`",
   "**Target:** `" ++ cfg.base_branch ++ "`",
   "**Commits:** " ++ toString commits.length ++ "\n",
   "### 📌 Commit Summary"]
  ++ commits.map spec_commit_line
  ++ ["\n### 🗂 Files Impacted"]
  ++ files.map spec_file_line
  ++ ["\n---\n_Auto-generated backport analysis._"]

/-! ### STEP 1: the duplicate-PR guard (`pr_already_exists`) -/

/-- `pr_already_exists()` (lines 33-36 of `sync.py`): one GET on the
open-pulls query, then `len(resp.json()) > 0`.  The response's HTTP
status is never inspected; an exception from the request or from
`resp.json()` propagates. -/
def pr_already_exists (env : Env) : Except PyErr Bool :=
  match env.guard with
  | .error e => .error e
  | .ok r =>
    match r.jsonLen with
    | .error e => .error e
    | .ok n => .ok (decide (0 < n))

/-! ### STEP 2: the branch comparator (`compare_branches`) -/

/-- `compare_branches()` (lines 41-58 of `sync.py`): print the banner,
GET the compare endpoint, abort with `SystemExit` surfacing `resp.text`
on a non-200 status, `exit(0)` when the commit list is empty, and
otherwise continue with the commit and file lists. -/
def compare_branches (cfg : Config) (env : Env) :
    StepOut (List CommitDict × List FileDict) :=
  let banner := "🔍 Comparing branches: " ++ cfg.base_branch ++ " ← "
    ++ cfg.head_branch
  match env.compare with
  | .error e => ⟨.halt (.failure e), [.getCompare], [banner]⟩
  | .ok r =>
    if r.status_code ≠ 200 then
      ⟨.halt (.failure (.systemExit ("❌ Compare API failed: " ++ r.text))),
        [.getCompare], [banner]⟩
    else
      match r.json with
      | .error e => ⟨.halt (.failure e), [.getCompare], [banner]⟩
      | .ok d =>
        if d.commits.isEmpty then
          ⟨.halt .success, [.getCompare],
            [banner, "✅ No missing commits found."]⟩
        else
          ⟨.cont (d.commits, d.files), [.getCompare],
            [banner, "✅ Found " ++ toString d.commits.length
              ++ " missing commits"]⟩

/-! ### STEP 4: the optional AI summarizer (`analyze_with_ai`) -/

/-- One entry of the `commit_text` prompt block (line 98 of `sync.py`):
`c["commit"]["message"].splitlines()[0]`. -/
def ai_commit_line (c : CommitDict) : Except PyErr String :=
  match c.message with
  | none => .error (.keyError "message")
  | some m => splitlines_head m

/-- One entry of the `file_text` prompt block (line 102 of `sync.py`). -/
def ai_file_line (f : FileDict) : Except PyErr String :=
  match f.filename with
  | none => .error (.keyError "filename")
  | some name => .ok name

/-- The `commit_text` generator (lines 97-100): one entry per commit, in
order, aborting at the first exception. -/
def ai_commit_lines : List CommitDict → Except PyErr (List String)
  | [] => .ok []
  | c :: rest =>
    match ai_commit_line c with
    | .error e => .error e
    | .ok line =>
      match ai_commit_lines rest with
      | .error e => .error e
      | .ok restLines => .ok (line :: restLines)

/-- The `file_text` generator (line 102). -/
def ai_file_lines : List FileDict → Except PyErr (List String)
  | [] => .ok []
  | f :: rest =>
    match ai_file_line f with
    | .error e => .error e
    | .ok line =>
      match ai_file_lines rest with
      | .error e => .error e
      | .ok restLines => .ok (line :: restLines)

/-- `analyze_with_ai(commits, files)` (lines 89-126 of `sync.py`).  The
`try` block covers only the SDK import and client construction: such a
failure prints a warning and returns `None`.  After it, prompt assembly
(`commit_text`, `file_text`) and the completion request itself run
unprotected, so their exceptions terminate the pipeline.  The request is
the only network call, issued after the prompt is assembled; its
response text is `env.aiResp`. -/
def analyze_with_ai (env : Env) (commits : List CommitDict)
    (files : List FileDict) : StepOut (Option String) :=
  match env.aiClient with
  | .error _ =>
    ⟨.cont none, [], ["⚠️ AI disabled or OpenAI SDK missing"]⟩
  | .ok _ =>
    match ai_commit_lines commits with
    | .error e => ⟨.halt (.failure e), [], []⟩
    | .ok _commit_text =>
      match ai_file_lines files with
      | .error e => ⟨.halt (.failure e), [], []⟩
      | .ok _file_text =>
        match env.aiResp with
        | .error e => ⟨.halt (.failure e), [.aiCompletion], []⟩
        | .ok content => ⟨.cont (some content), [.aiCompletion], []⟩

/-- Lines 191-194 of `main`: the AI step runs only under the AI flag. -/
def ai_step (cfg : Config) (env : Env) (commits : List CommitDict)
    (files : List FileDict) : StepOut (Option String) :=
  if cfg.enable_ai then analyze_with_ai env commits files
  else ⟨.cont none, [], []⟩

/-- Lines 193-194 of `main`: append the AI section when the summary is
truthy (Python: `None` and the empty string are both falsy). -/
def assemble_body (body0 : String) (ai_summary : Option String) : String :=
  match ai_summary with
  | none => body0
  | some s =>
    if s = "" then body0
    else body0 ++ "\n\n## 🤖 AI Review Insights\n" ++ s

/-! ### STEP 5: the publisher (`create_pull_request`) -/

/-- `create_pull_request(pr_body)` (lines 131-155 of `sync.py`).  In
dry-run mode it prints the title and body and exits 0 without any
request; otherwise it POSTs the PR, aborts on a status other than
200/201 surfacing `resp.text`, prints the new PR's URL and continues
with its number. -/
def create_pull_request (cfg : Config) (env : Env) (pr_body : String) :
    StepOut Nat :=
  let title := "sync " ++ cfg.head_branch ++ " → " ++ cfg.base_branch
  if cfg.dry_run then
    ⟨.halt .success, [],
      ["🧪 DRY-RUN MODE", "PR Title: " ++ title, "PR Body:\n " ++ pr_body]⟩
  else
    match env.create with
    | .error e => ⟨.halt (.failure e), [.postCreatePR], []⟩
    | .ok r =>
      if r.status_code ≠ 200 ∧ r.status_code ≠ 201 then
        ⟨.halt (.failure (.systemExit ("❌ PR creation failed: " ++ r.text))),
          [.postCreatePR], []⟩
      else
        match r.json with
        | .error e => ⟨.halt (.failure e), [.postCreatePR], []⟩
        | .ok pr =>
          match pr.html_url with
          | none => ⟨.halt (.failure (.keyError "html_url")),
              [.postCreatePR], []⟩
          | some url =>
            match pr.number with
            | none => ⟨.halt (.failure (.keyError "number")),
                [.postCreatePR], ["✅ PR created: " ++ url]⟩
            | some n => ⟨.cont n, [.postCreatePR], ["✅ PR created: " ++ url]⟩

/-! ### STEP 6: the best-effort annotator (`add_labels`, `add_reviewers`) -/

/-- `add_labels(pr_number)` (lines 160-168 of `sync.py`): POST the two
hardcoded labels; the bare `except: pass` discards any exception, so the
step's result does not depend on the request's outcome (the `Env.labels`
oracle is deliberately never read). -/
def add_labels (_env : Env) (_pr_number : Nat) : StepOut Unit :=
  ⟨.cont (), [.postLabels ["auto-backport", "needs-review"]], []⟩

/-- `add_reviewers(pr_number)` (lines 170-178 of `sync.py`): POST the two
hardcoded reviewers; any exception is discarded (`Env.reviewers` is
never read). -/
def add_reviewers (_env : Env) (_pr_number : Nat) : StepOut Unit :=
  ⟨.cont (), [.postReviewers ["team-lead", "release-owner"]], []⟩

/-! ### The whole pipeline (`main`, lines 183-198) -/

/-- The trace semantics of `main()` run as a script: the final outcome
(exit code 0 or the fatal error), the network requests issued, in order,
and the lines printed, in order. -/
def main (cfg : Config) (env : Env) : RunResult :=
  match pr_already_exists env with
  | .error e => ⟨.failure e, [.getPulls], []⟩
  | .ok true => ⟨.success, [.getPulls], ["⚠️ PR already exists. Exiting."]⟩
  | .ok false =>
    let s1 := compare_branches cfg env
    match s1.flow with
    | .halt o => ⟨o, .getPulls :: s1.calls, s1.prints⟩
    | .cont (commits, files) =>
      match analyze_commits cfg commits files with
      | .error e => ⟨.failure e, .getPulls :: s1.calls, s1.prints⟩
      | .ok body0 =>
        let s2 := ai_step cfg env commits files
        match s2.flow with
        | .halt o =>
          ⟨o, .getPulls :: (s1.calls ++ s2.calls), s1.prints ++ s2.prints⟩
        | .cont ai_summary =>
          let body := assemble_body body0 ai_summary
          let s3 := create_pull_request cfg env body
          match s3.flow with
          | .halt o =>
            ⟨o, .getPulls :: (s1.calls ++ s2.calls ++ s3.calls),
              s1.prints ++ s2.prints ++ s3.prints⟩
          | .cont pr_number =>
            let s4 := add_labels env pr_number
            let s5 := add_reviewers env pr_number
            ⟨.success,
              .getPulls :: (s1.calls ++ s2.calls ++ s3.calls
                ++ s4.calls ++ s5.calls),
              s1.prints ++ s2.prints ++ s3.prints
                ++ s4.prints ++ s5.prints⟩

/-! ### Lemmas about the report builder -/


theorem commit_line_e_ok (c : CommitDict) (h : wf_commit c) :
    commit_line_e c = .ok (spec_commit_line c) := by
  obtain ⟨hs, hm, ha⟩ := h
  obtain ⟨s, hs⟩ := Option.isSome_iff_exists.mp hs
  obtain ⟨m, hm⟩ := Option.isSome_iff_exists.mp hm
  obtain ⟨a, ha⟩ := Option.isSome_iff_exists.mp ha
  simp [commit_line_e, spec_commit_line, hs, hm, ha]

theorem file_line_e_ok (f : FileDict) (h : wf_file f) :
    file_line_e f = .ok (spec_file_line f) := by
  obtain ⟨n, hn⟩ := Option.isSome_iff_exists.mp h
  simp [file_line_e, spec_file_line, hn]

theorem commit_lines_ok (l : List CommitDict) (h : ∀ c ∈ l, wf_commit c) :
    commit_lines l = .ok (l.map spec_commit_line) := by
  induction l with
  | nil => rfl
  | cons c rest ih =>
    have hc := commit_line_e_ok c (h c (by simp))
    have hr := ih (fun x hx => h x (by simp [hx]))
    simp [commit_lines, hc, hr]

theorem file_lines_ok (l : List FileDict) (h : ∀ f ∈ l, wf_file f) :
    file_lines l = .ok (l.map spec_file_line) := by
  induction l with
  | nil => rfl
  | cons f rest ih =>
    have hf := file_line_e_ok f (h f (by simp))
    have hr := ih (fun x hx => h x (by simp [hx]))
    simp [file_lines, hf, hr]

theorem analyze_commits_ok (cfg : Config) (commits : List CommitDict)
    (files : List FileDict) (hc : ∀ c ∈ commits, wf_commit c)
    (hf : ∀ f ∈ files, wf_file f) :
    analyze_commits cfg commits files
      = .ok (py_join "\n" (spec_report_sections cfg commits files)) := by
  simp [analyze_commits, commit_lines_ok commits hc, file_lines_ok files hf,
    spec_report_sections]

theorem commit_line_e_isOk (c : CommitDict) :
    (commit_line_e c).isOk = true ↔ wf_commit c := by
  obtain ⟨s, m, a⟩ := c
  cases s <;> cases m <;> cases a <;>
    simp [commit_line_e, wf_commit, Except.isOk, Except.toBool]

theorem file_line_e_isOk (f : FileDict) :
    (file_line_e f).isOk = true ↔ wf_file f := by
  obtain ⟨n, a, d⟩ := f
  cases n <;> simp [file_line_e, wf_file, Except.isOk, Except.toBool]

theorem commit_lines_isOk (l : List CommitDict) :
    (commit_lines l).isOk = true ↔ ∀ c ∈ l, wf_commit c := by
  induction l with
  | nil => simp [commit_lines, Except.isOk, Except.toBool]
  | cons c rest ih =>
    constructor
    · intro h x hx
      rcases hcl : commit_line_e c with e | line
      · rw [commit_lines, hcl] at h; simp [Except.isOk, Except.toBool] at h
      · rcases hrest : commit_lines rest with e | rl
        · rw [commit_lines, hcl, hrest] at h
          simp [Except.isOk, Except.toBool] at h
        · rcases List.mem_cons.mp hx with rfl | hx
          · exact (commit_line_e_isOk x).mp (by simp [hcl, Except.isOk, Except.toBool])
          · exact (ih.mp (by simp [hrest, Except.isOk, Except.toBool])) x hx
    · intro h
      have hc := commit_line_e_ok c (h c (by simp))
      have hr := commit_lines_ok rest (fun x hx => h x (by simp [hx]))
      simp [commit_lines, hc, hr, Except.isOk, Except.toBool]



theorem file_lines_isOk (l : List FileDict) :
    (file_lines l).isOk = true ↔ ∀ f ∈ l, wf_file f := by
  induction l with
  | nil => simp [file_lines, Except.isOk, Except.toBool]
  | cons f rest ih =>
    constructor
    · intro h x hx
      rcases hfl : file_line_e f with e | line
      · rw [file_lines, hfl] at h; simp [Except.isOk, Except.toBool] at h
      · rcases hrest : file_lines rest with e | rl
        · rw [file_lines, hfl, hrest] at h
          simp [Except.isOk, Except.toBool] at h
        · rcases List.mem_cons.mp hx with rfl | hx
          · exact (file_line_e_isOk x).mp (by simp [hfl, Except.isOk, Except.toBool])
          · exact (ih.mp (by simp [hrest, Except.isOk, Except.toBool])) x hx
    · intro h
      have hf := file_line_e_ok f (h f (by simp))
      have hr := file_lines_ok rest (fun x hx => h x (by simp [hx]))
      simp [file_lines, hf, hr, Except.isOk, Except.toBool]

theorem analyze_commits_isOk (cfg : Config) (commits : List CommitDict)
    (files : List FileDict) :
    (analyze_commits cfg commits files).isOk = true
      ↔ (∀ c ∈ commits, wf_commit c) ∧ (∀ f ∈ files, wf_file f) := by
  constructor
  · intro h
    rcases hcl : commit_lines commits with e | cls
    · rw [analyze_commits, hcl] at h; simp [Except.isOk, Except.toBool] at h
    · rcases hfl : file_lines files with e | fls
      · rw [analyze_commits, hcl, hfl] at h
        simp [Except.isOk, Except.toBool] at h
      · exact ⟨(commit_lines_isOk commits).mp (by simp [hcl, Except.isOk, Except.toBool]),
          (file_lines_isOk files).mp (by simp [hfl, Except.isOk, Except.toBool])⟩
  · intro ⟨hc, hf⟩
    simp [analyze_commits_ok cfg commits files hc hf, Except.isOk, Except.toBool]

theorem commit_line_e_error (c : CommitDict) (e : PyErr)
    (h : commit_line_e c = .error e) : ∃ k, e = .keyError k := by
  obtain ⟨s, m, a⟩ := c
  cases s <;> cases m <;> cases a <;> simp [commit_line_e] at h <;>
    exact ⟨_, h.symm⟩

theorem file_line_e_error (f : FileDict) (e : PyErr)
    (h : file_line_e f = .error e) : ∃ k, e = .keyError k := by
  obtain ⟨n, a, d⟩ := f
  cases n <;> simp [file_line_e] at h
  exact ⟨_, h.symm⟩

theorem commit_lines_error (l : List CommitDict) (e : PyErr)
    (h : commit_lines l = .error e) : ∃ k, e = .keyError k := by
  induction l with
  | nil => simp [commit_lines] at h
  | cons c rest ih =>
    rcases hcl : commit_line_e c with e0 | line
    · rw [commit_lines, hcl] at h
      exact commit_line_e_error c e (by rw [hcl]; injection h with h; rw [h])
    · rcases hrest : commit_lines rest with e0 | rl
      · rw [commit_lines, hcl, hrest] at h
        injection h with h
        exact ih (by rw [hrest, h])
      · rw [commit_lines, hcl, hrest] at h; simp at h

theorem file_lines_error (l : List FileDict) (e : PyErr)
    (h : file_lines l = .error e) : ∃ k, e = .keyError k := by
  induction l with
  | nil => simp [file_lines] at h
  | cons f rest ih =>
    rcases hfl : file_line_e f with e0 | line
    · rw [file_lines, hfl] at h
      exact file_line_e_error f e (by rw [hfl]; injection h with h; rw [h])
    · rcases hrest : file_lines rest with e0 | rl
      · rw [file_lines, hfl, hrest] at h
        injection h with h
        exact ih (by rw [hrest, h])
      · rw [file_lines, hfl, hrest] at h; simp at h

theorem analyze_commits_error (cfg : Config) (commits : List CommitDict)
    (files : List FileDict) (e : PyErr)
    (h : analyze_commits cfg commits files = .error e) :
    ∃ k, e = .keyError k := by
  rcases hcl : commit_lines commits with e0 | cls
  · rw [analyze_commits, hcl] at h
    injection h with h
    exact commit_lines_error commits e0 (by rw [hcl]) |>.imp (fun k hk => by rw [← h, hk])
  · rcases hfl : file_lines files with e0 | fls
    · rw [analyze_commits, hcl, hfl] at h
      injection h with h
      exact file_lines_error files e0 (by rw [hfl]) |>.imp (fun k hk => by rw [← h, hk])
    · rw [analyze_commits, hcl, hfl] at h; simp at h

/-! ### Lemmas about the pipeline -/

/-- The AI step issues at most the one completion request. -/
theorem analyze_with_ai_calls (env : Env) (commits : List CommitDict)
    (files : List FileDict) :
    (analyze_with_ai env commits files).calls = []
      ∨ (analyze_with_ai env commits files).calls = [.aiCompletion] := by
  unfold analyze_with_ai
  rcases env.aiClient with e | u
  · left; rfl
  · rcases ai_commit_lines commits with e | ct
    · left; rfl
    · rcases ai_file_lines files with e | ft
      · left; rfl
      · rcases env.aiResp with e | s
        · right; rfl
        · right; rfl

theorem ai_step_calls (cfg : Config) (env : Env) (commits : List CommitDict)
    (files : List FileDict) :
    (ai_step cfg env commits files).calls = []
      ∨ (ai_step cfg env commits files).calls = [.aiCompletion] := by
  unfold ai_step
  rcases cfg.enable_ai with _ | _
  · left; rfl
  · exact analyze_with_ai_calls env commits files

/-- `main` never reads the outcomes of the label and reviewer requests:
the bare `except` clauses in `add_labels`/`add_reviewers` discard them. -/
theorem main_ignores_annotator_responses (cfg : Config) (env : Env)
    (lres rres : Except PyErr Unit) :
    main cfg { env with labels := lres, reviewers := rres }
      = main cfg env := by
  obtain ⟨eg, ec, ea1, ea2, ecr, el, er⟩ := env
  rfl

/-! ### Concrete fixtures for the witnesses and counterexamples -/

/-- The default configuration: base `develop`, head `release123`, AI off,
live publish. -/
def cfg_default : Config := ⟨"develop", "release123", false, false⟩

/-- Default branches, AI enabled, dry-run. -/
def cfg_ai_dry : Config := ⟨"develop", "release123", true, true⟩

/-- Default branches, AI enabled, live publish. -/
def cfg_ai_live : Config := ⟨"develop", "release123", true, false⟩

def commit_ex : CommitDict :=
  ⟨some "abcdef1234567890", some "Fix bug\nmore", some "Ann"⟩

def commit_ex2 : CommitDict :=
  ⟨some "1234567abcdef", some "Improve logging", some "Bob"⟩

def file_ex : FileDict := ⟨some "a.py", none, none⟩

def file_ex2 : FileDict := ⟨some "b.py", some 3, some 1⟩

/-- A placeholder response for endpoints an execution never reaches. -/
def unreached : PyErr := .exn "unreached"

/-- Guard finds one open PR. -/
def env_dup : Env :=
  ⟨.ok ⟨200, .ok 1⟩, .error unreached, .error unreached, .error unreached,
   .error unreached, .error unreached, .error unreached⟩

/-- The guard request raises a network error. -/
def env_guard_neterr : Env :=
  ⟨.error (.exn "ConnectionError"), .error unreached, .error unreached,
   .error unreached, .error unreached, .error unreached, .error unreached⟩

/-- The guard response body fails to parse. -/
def env_guard_parseerr : Env :=
  ⟨.ok ⟨200, .error (.exn "JSONDecodeError")⟩, .error unreached,
   .error unreached, .error unreached, .error unreached, .error unreached,
   .error unreached⟩

/-- The guard receives a non-success platform response (HTTP 500) whose
JSON error object has two keys. -/
def env_guard_500 : Env :=
  ⟨.ok ⟨500, .ok 2⟩, .error unreached, .error unreached, .error unreached,
   .error unreached, .error unreached, .error unreached⟩

/-- No duplicate PR; compare succeeds with an empty commit list. -/
def env_empty_diff : Env :=
  ⟨.ok ⟨200, .ok 0⟩, .ok ⟨200, "", .ok ⟨[], []⟩⟩, .error unreached,
   .error unreached, .error unreached, .error unreached, .error unreached⟩

/-- No duplicate PR; compare returns HTTP 404. -/
def env_compare_404 : Env :=
  ⟨.ok ⟨200, .ok 0⟩, .ok ⟨404, "Not Found", .error (.exn "unparsed")⟩,
   .error unreached, .error unreached, .error unreached, .error unreached,
   .error unreached⟩

/-- A full successful run: two commits, two files, AI summary available,
PR creation succeeds; the labels request would raise (and is ignored). -/
def env_run : Env :=
  ⟨.ok ⟨200, .ok 0⟩,
   .ok ⟨200, "", .ok ⟨[commit_ex, commit_ex2], [file_ex, file_ex2]⟩⟩,
   .ok (), .ok "looks risky",
   .ok ⟨201, "", .ok ⟨some "https://example.invalid/pr/7", some 7⟩⟩,
   .error (.exn "labels request refused"), .ok ()⟩

/-- Like `env_run` but the completion request itself fails. -/
def env_ai_reqfail : Env :=
  { env_run with aiResp := .error (.exn "APIConnectionError") }

/-- Like `env_run` but the SDK import / client construction fails. -/
def env_ai_clientfail : Env :=
  { env_run with aiClient := .error (.exn "OpenAIError: api_key missing") }

/-! ### C1: AI failures and the pipeline -/

/-- C1 counterexample: with the AI flag set, the SDK import and client
construction succeeding, and the completion request itself failing, the
pipeline aborts with a non-zero exit instead of continuing with no AI
section — refuting the claim that a failure of the completion request
never causes the overall pipeline to abort. -/
theorem c1_counterexample :
    env_ai_reqfail.aiClient = .ok ()
    ∧ env_ai_reqfail.aiResp = .error (.exn "APIConnectionError")
    ∧ cfg_ai_live.enable_ai = true
    ∧ (main cfg_ai_live env_ai_reqfail).outcome
        = .failure (.exn "APIConnectionError") :=
  ⟨rfl, rfl, rfl, rfl⟩

/-- C1 (amended): with the AI flag set, on a run that reaches the AI
step, (a) a failure of the SDK import or client construction (missing
SDK, missing credential) degrades to no AI section: the run has the same
outcome and issues the same network requests as the same run with AI
disabled, and in dry-run mode the printed body is exactly the plain
report; but (b) a failure of the completion request itself propagates
and terminates the process with that error. -/
theorem ai_failure_modes (cfg : Config) (env : Env)
    (g : GuardResp) (r : CompareResp) (d : CompareJson)
    (c : CommitDict) (cs : List CommitDict) (body0 : String)
    (hg : env.guard = .ok g) (hn : g.jsonLen = .ok 0)
    (hc : env.compare = .ok r) (hs : r.status_code = 200)
    (hj : r.json = .ok d) (hcs : d.commits = c :: cs)
    (hb0 : analyze_commits cfg d.commits d.files = .ok body0)
    (hAI : cfg.enable_ai = true) :
    (∀ e, env.aiClient = .error e →
        (main cfg env).outcome
            = (main { cfg with enable_ai := false } env).outcome
        ∧ (main cfg env).calls
            = (main { cfg with enable_ai := false } env).calls
        ∧ (cfg.dry_run = true →
            List.IsSuffix ["PR Body:\n " ++ body0] (main cfg env).prints))
    ∧ (∀ u ct ft e, env.aiClient = .ok u →
        ai_commit_lines d.commits = .ok ct →
        ai_file_lines d.files = .ok ft →
        env.aiResp = .error e →
        (main cfg env).outcome = .failure e) := by
  obtain ⟨bb, hbr, ai, dr⟩ := cfg
  simp only at hAI
  subst hAI
  have hb : pr_already_exists env = .ok false := by
    simp [pr_already_exists, hg, hn]
  have hcmp : compare_branches ⟨bb, hbr, true, dr⟩ env
      = ⟨.cont (d.commits, d.files), [.getCompare],
          ["🔍 Comparing branches: " ++ bb ++ " ← " ++ hbr,
           "✅ Found " ++ toString d.commits.length ++ " missing commits"]⟩ := by
    simp [compare_branches, hc, hs, hj, hcs]
  have hcmp2 : compare_branches ⟨bb, hbr, false, dr⟩ env
      = ⟨.cont (d.commits, d.files), [.getCompare],
          ["🔍 Comparing branches: " ++ bb ++ " ← " ++ hbr,
           "✅ Found " ++ toString d.commits.length ++ " missing commits"]⟩ :=
    hcmp
  have hb02 : analyze_commits ⟨bb, hbr, false, dr⟩ d.commits d.files
      = .ok body0 := hb0
  constructor
  · intro e he
    have hstep : ai_step ⟨bb, hbr, true, dr⟩ env d.commits d.files
        = ⟨.cont none, [], ["⚠️ AI disabled or OpenAI SDK missing"]⟩ := by
      simp [ai_step, analyze_with_ai, he]
    have hstep2 : ai_step ⟨bb, hbr, false, dr⟩ env d.commits d.files
        = ⟨.cont none, [], []⟩ := by
      simp [ai_step]
    have hC : dr = true →
        List.IsSuffix ["PR Body:\n " ++ body0]
          (main ⟨bb, hbr, true, dr⟩ env).prints := by
      intro hdr
      subst hdr
      have hpub : create_pull_request ⟨bb, hbr, true, true⟩ env
          (assemble_body body0 none)
          = ⟨.halt .success, [],
             ["🧪 DRY-RUN MODE",
              "PR Title: " ++ ("sync " ++ hbr ++ " → " ++ bb),
              "PR Body:\n " ++ body0]⟩ := by
        simp [create_pull_request, assemble_body]
      have hm : main ⟨bb, hbr, true, true⟩ env
          = ⟨.success, .getPulls :: ([.getCompare] ++ [] ++ []),
             ["🔍 Comparing branches: " ++ bb ++ " ← " ++ hbr,
              "✅ Found " ++ toString d.commits.length ++ " missing commits"]
             ++ ["⚠️ AI disabled or OpenAI SDK missing"]
             ++ ["🧪 DRY-RUN MODE",
                 "PR Title: " ++ ("sync " ++ hbr ++ " → " ++ bb),
                 "PR Body:\n " ++ body0]⟩ := by
        simp [main, hb, hcmp, hb0, hstep, hpub]
      rw [hm]
      exact ⟨["🔍 Comparing branches: " ++ bb ++ " ← " ++ hbr,
              "✅ Found " ++ toString d.commits.length ++ " missing commits",
              "⚠️ AI disabled or OpenAI SDK missing",
              "🧪 DRY-RUN MODE",
              "PR Title: " ++ ("sync " ++ hbr ++ " → " ++ bb)], by simp⟩
    rcases hs3 : create_pull_request ⟨bb, hbr, true, dr⟩ env
        (assemble_body body0 none) with ⟨fl3, c3, p3⟩
    have hs32 : create_pull_request ⟨bb, hbr, false, dr⟩ env
        (assemble_body body0 none) = ⟨fl3, c3, p3⟩ := hs3
    cases fl3 with
    | halt o =>
      have hmA : main ⟨bb, hbr, true, dr⟩ env
          = ⟨o, .getPulls :: ([.getCompare] ++ [] ++ c3),
             ["🔍 Comparing branches: " ++ bb ++ " ← " ++ hbr,
              "✅ Found " ++ toString d.commits.length ++ " missing commits"]
             ++ ["⚠️ AI disabled or OpenAI SDK missing"] ++ p3⟩ := by
        simp [main, hb, hcmp, hb0, hstep, hs3]
      have hmB : main ⟨bb, hbr, false, dr⟩ env
          = ⟨o, .getPulls :: ([.getCompare] ++ [] ++ c3),
             ["🔍 Comparing branches: " ++ bb ++ " ← " ++ hbr,
              "✅ Found " ++ toString d.commits.length ++ " missing commits"]
             ++ [] ++ p3⟩ := by
        simp [main, hb, hcmp2, hb02, hstep2, hs32]
      exact ⟨by rw [hmA, hmB], by rw [hmA, hmB], hC⟩
    | cont prn =>
      have hmA : main ⟨bb, hbr, true, dr⟩ env
          = ⟨.success,
             .getPulls :: ([.getCompare] ++ [] ++ c3
               ++ [.postLabels ["auto-backport", "needs-review"]]
               ++ [.postReviewers ["team-lead", "release-owner"]]),
             ["🔍 Comparing branches: " ++ bb ++ " ← " ++ hbr,
              "✅ Found " ++ toString d.commits.length ++ " missing commits"]
             ++ ["⚠️ AI disabled or OpenAI SDK missing"]
             ++ p3 ++ [] ++ []⟩ := by
        simp [main, hb, hcmp, hb0, hstep, hs3, add_labels, add_reviewers]
      have hmB : main ⟨bb, hbr, false, dr⟩ env
          = ⟨.success,
             .getPulls :: ([.getCompare] ++ [] ++ c3
               ++ [.postLabels ["auto-backport", "needs-review"]]
               ++ [.postReviewers ["team-lead", "release-owner"]]),
             ["🔍 Comparing branches: " ++ bb ++ " ← " ++ hbr,
              "✅ Found " ++ toString d.commits.length ++ " missing commits"]
             ++ [] ++ p3 ++ [] ++ []⟩ := by
        simp [main, hb, hcmp2, hb02, hstep2, hs32, add_labels, add_reviewers]
      exact ⟨by rw [hmA, hmB], by rw [hmA, hmB], hC⟩
  · intro u ct ft e hcl hct hft hres
    have hstep : ai_step ⟨bb, hbr, true, dr⟩ env d.commits d.files
        = ⟨.halt (.failure e), [.aiCompletion], []⟩ := by
      simp [ai_step, analyze_with_ai, hcl, hct, hft, hres]
    have hm : (main ⟨bb, hbr, true, dr⟩ env).outcome = .failure e := by
      simp [main, hb, hcmp, hb0, hstep]
    exact hm

/-- C1 witness: `ai_failure_modes` applied to the concrete client-failure
run (same outcome and requests as the AI-disabled run) and to the
concrete request-failure run (fatal). -/
theorem ai_failure_modes_witness :
    (main cfg_ai_dry env_ai_clientfail).outcome
        = (main { cfg_ai_dry with enable_ai := false } env_ai_clientfail).outcome
    ∧ (main cfg_ai_dry env_ai_clientfail).calls
        = (main { cfg_ai_dry with enable_ai := false } env_ai_clientfail).calls
    ∧ (main cfg_ai_live env_ai_reqfail).outcome
        = .failure (.exn "APIConnectionError") := by
  have h1 := ai_failure_modes cfg_ai_dry env_ai_clientfail ⟨200, .ok 0⟩
    ⟨200, "", .ok ⟨[commit_ex, commit_ex2], [file_ex, file_ex2]⟩⟩
    ⟨[commit_ex, commit_ex2], [file_ex, file_ex2]⟩ commit_ex [commit_ex2]
    ((analyze_commits cfg_ai_dry [commit_ex, commit_ex2]
        [file_ex, file_ex2]).toOption.getD "")
    rfl rfl rfl rfl rfl rfl (by rfl) rfl
  have h2 := ai_failure_modes cfg_ai_live env_ai_reqfail ⟨200, .ok 0⟩
    ⟨200, "", .ok ⟨[commit_ex, commit_ex2], [file_ex, file_ex2]⟩⟩
    ⟨[commit_ex, commit_ex2], [file_ex, file_ex2]⟩ commit_ex [commit_ex2]
    ((analyze_commits cfg_ai_live [commit_ex, commit_ex2]
        [file_ex, file_ex2]).toOption.getD "")
    rfl rfl rfl rfl rfl rfl (by rfl) rfl
  refine ⟨(h1.1 _ rfl).1, (h1.1 _ rfl).2.1, ?_⟩
  exact h2.2 () ["Fix bug", "Improve logging"] ["a.py", "b.py"]
    (.exn "APIConnectionError") rfl (by rfl) (by rfl) rfl

/-! ### C2: the rendered report format -/

/-- C2 counterexample: for the commit from the claim, no line of the
report equals `` `abcdef1` – Fix bug _(by Ann)_ ``; the commit is in fact
rendered with a leading `- ` list bullet. -/
theorem c2_counterexample :
    "`abcdef1` – Fix bug _(by Ann)_" ∉
      lines_of ((analyze_commits cfg_default
        [commit_ex] [file_ex]).toOption.getD "")
    ∧ "- `abcdef1` – Fix bug _(by Ann)_" ∈
      lines_of ((analyze_commits cfg_default
        [commit_ex] [file_ex]).toOption.getD "") := by
  constructor <;> decide

/-- C2 (amended): for well-formed inputs the report builder is the pure
function rendering, in input order and with no reordering, one line per
commit of the exact form `- ` + backtick-quoted first 7 sha characters +
`` – `` + first message line + `` _(by author)_ ``, and one line per file
of the exact form `- ` + backtick-quoted path + `(+additions /
-deletions)` with missing counts defaulting to 0, between the fixed
header and footer sections (`spec_report_sections` spells the format
out; determinism — byte-identical output on identical inputs — is
definitional, since `analyze_commits` is a function of its arguments). -/
theorem report_renders_spec (cfg : Config) (commits : List CommitDict)
    (files : List FileDict) (hc : ∀ c ∈ commits, wf_commit c)
    (hf : ∀ f ∈ files, wf_file f) :
    analyze_commits cfg commits files
      = .ok (py_join "\n" (spec_report_sections cfg commits files)) :=
  analyze_commits_ok cfg commits files hc hf

/-- C2 witness: the rendering equation at a concrete two-commit,
two-file input. -/
theorem report_renders_spec_witness :
    analyze_commits cfg_default [commit_ex, commit_ex2] [file_ex, file_ex2]
      = .ok (py_join "\n" (spec_report_sections cfg_default
          [commit_ex, commit_ex2] [file_ex, file_ex2])) :=
  report_renders_spec cfg_default [commit_ex, commit_ex2] [file_ex, file_ex2]
    (by decide) (by decide)

/-! ### C3: the duplicate-PR guard short-circuits -/

/-- C3: when the guard query returns a non-empty list of open pull
requests, the run issues no further network request (the trace is
exactly the one guard request), prints the duplicate notice, and exits
successfully. -/
theorem duplicate_guard_short_circuits (cfg : Config) (env : Env)
    (g : GuardResp) (n : Nat) (hg : env.guard = .ok g)
    (hn : g.jsonLen = .ok n) (hpos : 0 < n) :
    main cfg env
      = ⟨.success, [.getPulls], ["⚠️ PR already exists. Exiting."]⟩ := by
  have hb : pr_already_exists env = .ok true := by
    simp [pr_already_exists, hg, hn, hpos]
  simp [main, hb]

/-- C3 witness: the guard finds one open PR. -/
theorem duplicate_guard_short_circuits_witness :
    main cfg_default env_dup
      = ⟨.success, [.getPulls], ["⚠️ PR already exists. Exiting."]⟩ :=
  duplicate_guard_short_circuits cfg_default env_dup ⟨200, .ok 1⟩ 1
    rfl rfl (by decide)

/-! ### C4: the empty diff is a normal termination -/

/-- C4: when the compare response has status 200 and an empty commit
list, the process exits successfully having issued only the guard and
compare requests — no report is built and no PR is created. -/
theorem empty_diff_exits_successfully (cfg : Config) (env : Env)
    (g : GuardResp) (r : CompareResp) (d : CompareJson)
    (hg : env.guard = .ok g) (hn : g.jsonLen = .ok 0)
    (hc : env.compare = .ok r) (hs : r.status_code = 200)
    (hj : r.json = .ok d) (hempty : d.commits = []) :
    main cfg env
      = ⟨.success, [.getPulls, .getCompare],
          ["🔍 Comparing branches: " ++ cfg.base_branch ++ " ← "
            ++ cfg.head_branch,
           "✅ No missing commits found."]⟩ := by
  have hb : pr_already_exists env = .ok false := by
    simp [pr_already_exists, hg, hn]
  have hcmp : compare_branches cfg env
      = ⟨.halt .success, [.getCompare],
          ["🔍 Comparing branches: " ++ cfg.base_branch ++ " ← "
            ++ cfg.head_branch,
           "✅ No missing commits found."]⟩ := by
    simp [compare_branches, hc, hs, hj, hempty]
  simp [main, hb, hcmp]

/-- C4 witness: an empty compare result under the default branches. -/
theorem empty_diff_exits_successfully_witness :
    main cfg_default env_empty_diff
      = ⟨.success, [.getPulls, .getCompare],
          ["🔍 Comparing branches: develop ← release123",
           "✅ No missing commits found."]⟩ :=
  empty_diff_exits_successfully cfg_default env_empty_diff ⟨200, .ok 0⟩
    ⟨200, "", .ok ⟨[], []⟩⟩ ⟨[], []⟩ rfl rfl rfl rfl rfl rfl

/-! ### C5: dry-run never publishes -/

/-- C5: any invocation with the dry-run flag set that reaches the
publisher exits successfully having issued only the guard, compare and
(possibly) completion requests — never the PR-creation, label or
reviewer requests — and its output ends with the dry-run banner, the PR
title and the full report body; under the default branches the printed
title line is exactly `PR Title: sync release123 → develop`. -/
theorem dry_run_publishes_nothing (cfg : Config) (env : Env)
    (g : GuardResp) (r : CompareResp) (d : CompareJson)
    (c : CommitDict) (cs : List CommitDict) (body0 : String)
    (ai_summary : Option String)
    (hdry : cfg.dry_run = true)
    (hg : env.guard = .ok g) (hn : g.jsonLen = .ok 0)
    (hc : env.compare = .ok r) (hs : r.status_code = 200)
    (hj : r.json = .ok d) (hcs : d.commits = c :: cs)
    (hb0 : analyze_commits cfg d.commits d.files = .ok body0)
    (hai : (ai_step cfg env d.commits d.files).flow = .cont ai_summary) :
    (main cfg env).outcome = .success
    ∧ (∀ x ∈ (main cfg env).calls,
        x = .getPulls ∨ x = .getCompare ∨ x = .aiCompletion)
    ∧ List.IsSuffix
        ["🧪 DRY-RUN MODE",
         "PR Title: " ++ ("sync " ++ cfg.head_branch ++ " → "
            ++ cfg.base_branch),
         "PR Body:\n " ++ assemble_body body0 ai_summary]
        (main cfg env).prints
    ∧ (cfg.head_branch = "release123" → cfg.base_branch = "develop" →
        "PR Title: sync release123 → develop" ∈ (main cfg env).prints) := by
  have hb : pr_already_exists env = .ok false := by
    simp [pr_already_exists, hg, hn]
  have hcmp : compare_branches cfg env
      = ⟨.cont (d.commits, d.files), [.getCompare],
          ["🔍 Comparing branches: " ++ cfg.base_branch ++ " ← "
            ++ cfg.head_branch,
           "✅ Found " ++ toString d.commits.length ++ " missing commits"]⟩ := by
    simp [compare_branches, hc, hs, hj, hcs]
  have hpub : create_pull_request cfg env (assemble_body body0 ai_summary)
      = ⟨.halt .success, [],
          ["🧪 DRY-RUN MODE",
           "PR Title: " ++ ("sync " ++ cfg.head_branch ++ " → "
              ++ cfg.base_branch),
           "PR Body:\n " ++ assemble_body body0 ai_summary]⟩ := by
    simp [create_pull_request, hdry]
  rcases hs2 : ai_step cfg env d.commits d.files with ⟨fl, acalls, aprints⟩
  rw [hs2] at hai
  simp only at hai
  subst hai
  have hmain : main cfg env
      = ⟨.success,
          .getPulls :: ([.getCompare] ++ acalls ++ []),
          ["🔍 Comparing branches: " ++ cfg.base_branch ++ " ← "
            ++ cfg.head_branch,
           "✅ Found " ++ toString d.commits.length ++ " missing commits"]
          ++ aprints
          ++ ["🧪 DRY-RUN MODE",
              "PR Title: " ++ ("sync " ++ cfg.head_branch ++ " → "
                ++ cfg.base_branch),
              "PR Body:\n " ++ assemble_body body0 ai_summary]⟩ := by
    simp [main, hb, hcmp, hb0, hs2, hpub]
  refine ⟨by rw [hmain], ?_, ?_, ?_⟩
  · intro x hx
    have hac := ai_step_calls cfg env d.commits d.files
    rw [hs2] at hac
    simp only at hac
    rw [hmain] at hx
    rcases hac with hac | hac <;> subst hac <;> simp at hx <;> tauto
  · rw [hmain]
    exact ⟨["🔍 Comparing branches: " ++ cfg.base_branch ++ " ← "
        ++ cfg.head_branch,
      "✅ Found " ++ toString d.commits.length ++ " missing commits"]
      ++ aprints, by simp⟩
  · intro h1 h2
    have ht : "PR Title: sync release123 → develop"
        = "PR Title: " ++ ("sync " ++ cfg.head_branch ++ " → "
            ++ cfg.base_branch) := by
      rw [h1, h2]; decide
    rw [hmain, ht]
    simp

/-- C5 witness: a dry run over two commits and three files with AI
enabled exits successfully and prints the default title. -/
theorem dry_run_publishes_nothing_witness :
    (main cfg_ai_dry env_run).outcome = .success
    ∧ "PR Title: sync release123 → develop" ∈ (main cfg_ai_dry env_run).prints := by
  have h := dry_run_publishes_nothing cfg_ai_dry env_run ⟨200, .ok 0⟩
    ⟨200, "", .ok ⟨[commit_ex, commit_ex2], [file_ex, file_ex2]⟩⟩
    ⟨[commit_ex, commit_ex2], [file_ex, file_ex2]⟩ commit_ex [commit_ex2]
    ((analyze_commits cfg_ai_dry [commit_ex, commit_ex2]
        [file_ex, file_ex2]).toOption.getD "")
    (some "looks risky") rfl rfl rfl rfl rfl rfl rfl (by rfl) (by rfl)
  exact ⟨h.1, h.2.2.2 rfl rfl⟩

/-! ### C6: a failed compare is fatal -/

/-- C6: a compare response with a non-success status aborts the run
immediately with a non-zero exit whose message surfaces the response
body, after only the guard and compare requests. -/
theorem compare_non_success_is_fatal (cfg : Config) (env : Env)
    (g : GuardResp) (r : CompareResp)
    (hg : env.guard = .ok g) (hn : g.jsonLen = .ok 0)
    (hc : env.compare = .ok r) (hs : r.status_code ≠ 200) :
    main cfg env
      = ⟨.failure (.systemExit ("❌ Compare API failed: " ++ r.text)),
          [.getPulls, .getCompare],
          ["🔍 Comparing branches: " ++ cfg.base_branch ++ " ← "
            ++ cfg.head_branch]⟩ := by
  have hb : pr_already_exists env = .ok false := by
    simp [pr_already_exists, hg, hn]
  have hcmp : compare_branches cfg env
      = ⟨.halt (.failure (.systemExit ("❌ Compare API failed: " ++ r.text))),
          [.getCompare],
          ["🔍 Comparing branches: " ++ cfg.base_branch ++ " ← "
            ++ cfg.head_branch]⟩ := by
    simp [compare_branches, hc, hs]
  simp [main, hb, hcmp]

/-- C6 witness: a 404 compare response surfaces `Not Found`. -/
theorem compare_non_success_is_fatal_witness :
    main cfg_default env_compare_404
      = ⟨.failure (.systemExit "❌ Compare API failed: Not Found"),
          [.getPulls, .getCompare],
          ["🔍 Comparing branches: develop ← release123"]⟩ :=
  compare_non_success_is_fatal cfg_default env_compare_404 ⟨200, .ok 0⟩
    ⟨404, "Not Found", .error (.exn "unparsed")⟩ rfl rfl rfl (by decide)

/-! ### C7: guard failures -/

/-- C7 counterexample: the guard never inspects the HTTP status, so a
non-success platform response (here HTTP 500 whose JSON error object has
two keys) is not fatal: `len(resp.json()) > 0` holds and the run exits
successfully claiming a duplicate PR — refuting the claim that a
non-success platform response terminates the process with non-zero
exit. -/
theorem c7_counterexample :
    env_guard_500.guard = .ok ⟨500, .ok 2⟩
    ∧ main cfg_default env_guard_500
        = ⟨.success, [.getPulls], ["⚠️ PR already exists. Exiting."]⟩ :=
  ⟨rfl, rfl⟩

/-- C7 (amended): an exception raised during the guard query — by the
request itself or by parsing its body — propagates as a fatal error: the
process terminates with that error having issued only the guard request.
(The HTTP status of a delivered response, however, is never inspected.) -/
theorem guard_exception_is_fatal (cfg : Config) (env : Env) :
    (∀ e, env.guard = .error e
      → main cfg env = ⟨.failure e, [.getPulls], []⟩)
    ∧ (∀ g e, env.guard = .ok g → g.jsonLen = .error e
      → main cfg env = ⟨.failure e, [.getPulls], []⟩) := by
  constructor
  · intro e hg
    have hb : pr_already_exists env = .error e := by
      simp [pr_already_exists, hg]
    simp [main, hb]
  · intro g e hg hn
    have hb : pr_already_exists env = .error e := by
      simp [pr_already_exists, hg, hn]
    simp [main, hb]

/-- C7 witness: a connection error and a JSON parse error during the
guard query are each fatal. -/
theorem guard_exception_is_fatal_witness :
    main cfg_default env_guard_neterr
      = ⟨.failure (.exn "ConnectionError"), [.getPulls], []⟩
    ∧ main cfg_default env_guard_parseerr
      = ⟨.failure (.exn "JSONDecodeError"), [.getPulls], []⟩ :=
  ⟨(guard_exception_is_fatal cfg_default env_guard_neterr).1
      (.exn "ConnectionError") rfl,
   (guard_exception_is_fatal cfg_default env_guard_parseerr).2
      ⟨200, .error (.exn "JSONDecodeError")⟩ (.exn "JSONDecodeError") rfl rfl⟩

/-! ### C8: section order of the published body -/

/-- C8 counterexample: in a run with AI enabled and succeeding, the last
line of the published body (the body printed by the dry-run publisher)
is the AI summary, not the fixed footer — refuting the claim that the
footer line comes last. -/
theorem c8_counterexample :
    (lines_of ((main cfg_ai_dry env_run).prints.getLastD "")).getLastD ""
        = "looks risky"
    ∧ "_Auto-generated backport analysis._" ∈
        lines_of ((main cfg_ai_dry env_run).prints.getLastD "")
    ∧ "looks risky" ≠ "_Auto-generated backport analysis._" := by
  refine ⟨by decide, by decide, by decide⟩

/-- C8 (amended): the published body is the ordered sections header,
commit summary, file summary and footer (`spec_report_sections`, whose
last section is the footer); when AI is enabled and succeeds with a
non-empty summary, the AI section is appended AFTER the footer, so the
footer is last only in the AI-less body. -/
theorem ai_section_after_footer (cfg : Config) (commits : List CommitDict)
    (files : List FileDict) (hc : ∀ c ∈ commits, wf_commit c)
    (hf : ∀ f ∈ files, wf_file f) (s : String) (hns : s ≠ "") :
    (spec_report_sections cfg commits files).getLast?
        = some "\n---\n_Auto-generated backport analysis._"
    ∧ assemble_body ((analyze_commits cfg commits files).toOption.getD "") none
        = py_join "\n" (spec_report_sections cfg commits files)
    ∧ assemble_body ((analyze_commits cfg commits files).toOption.getD "")
        (some s)
        = py_join "\n" (spec_report_sections cfg commits files)
          ++ ("\n\n## 🤖 AI Review Insights\n" ++ s) := by
  have hb := analyze_commits_ok cfg commits files hc hf
  refine ⟨?_, ?_, ?_⟩
  · unfold spec_report_sections
    rw [List.getLast?_concat]
  · simp [hb, Except.toOption, assemble_body]
  · simp [hb, Except.toOption, assemble_body, hns, String.append_assoc]

/-- C8 witness: the appended-after-footer equation at a concrete
one-commit, one-file input with the summary `looks risky`. -/
theorem ai_section_after_footer_witness :
    assemble_body
        ((analyze_commits cfg_default [commit_ex] [file_ex]).toOption.getD "")
        (some "looks risky")
      = py_join "\n" (spec_report_sections cfg_default [commit_ex] [file_ex])
        ++ ("\n\n## 🤖 AI Review Insights\n" ++ "looks risky") :=
  (ai_section_after_footer cfg_default [commit_ex] [file_ex]
    (by decide) (by decide) "looks risky" (by decide)).2.2

/-! ### C9: the best-effort annotator -/

/-- C9: a run that creates a PR ends with exactly the two annotator
requests — the labels `auto-backport`/`needs-review` and the reviewers
`team-lead`/`release-owner`, each issued exactly once, in this order
after the creation request — exits successfully, and its entire
observable behaviour is unchanged under arbitrary substitution of the
label/reviewer request outcomes (their exceptions are caught and
discarded). -/
theorem annotator_best_effort (cfg : Config) (env : Env)
    (g : GuardResp) (r : CompareResp) (d : CompareJson)
    (c : CommitDict) (cs : List CommitDict) (body0 : String)
    (ai_summary : Option String) (cr : CreateResp) (pr : CreatePR)
    (url : String) (prn : Nat)
    (hdry : cfg.dry_run = false)
    (hg : env.guard = .ok g) (hn : g.jsonLen = .ok 0)
    (hc : env.compare = .ok r) (hs : r.status_code = 200)
    (hj : r.json = .ok d) (hcs : d.commits = c :: cs)
    (hb0 : analyze_commits cfg d.commits d.files = .ok body0)
    (hai : (ai_step cfg env d.commits d.files).flow = .cont ai_summary)
    (hcr : env.create = .ok cr)
    (hst : cr.status_code = 200 ∨ cr.status_code = 201)
    (hcj : cr.json = .ok pr) (hurl : pr.html_url = some url)
    (hnum : pr.number = some prn) :
    (main cfg env).outcome = .success
    ∧ List.IsSuffix
        [NetCall.postCreatePR,
         .postLabels ["auto-backport", "needs-review"],
         .postReviewers ["team-lead", "release-owner"]]
        (main cfg env).calls
    ∧ ((main cfg env).calls.count
          (NetCall.postLabels ["auto-backport", "needs-review"]) = 1
       ∧ (main cfg env).calls.count
          (NetCall.postReviewers ["team-lead", "release-owner"]) = 1)
    ∧ (∀ lres rres,
        main cfg { env with labels := lres, reviewers := rres }
          = main cfg env) := by
  have hb : pr_already_exists env = .ok false := by
    simp [pr_already_exists, hg, hn]
  have hcmp : compare_branches cfg env
      = ⟨.cont (d.commits, d.files), [.getCompare],
          ["🔍 Comparing branches: " ++ cfg.base_branch ++ " ← "
            ++ cfg.head_branch,
           "✅ Found " ++ toString d.commits.length ++ " missing commits"]⟩ := by
    simp [compare_branches, hc, hs, hj, hcs]
  have hpub : create_pull_request cfg env (assemble_body body0 ai_summary)
      = ⟨.cont prn, [.postCreatePR], ["✅ PR created: " ++ url]⟩ := by
    rcases hst with hst | hst <;>
      simp [create_pull_request, hdry, hcr, hst, hcj, hurl, hnum]
  rcases hs2 : ai_step cfg env d.commits d.files with ⟨fl, acalls, aprints⟩
  rw [hs2] at hai
  simp only at hai
  subst hai
  have hmain : main cfg env
      = ⟨.success,
          .getPulls :: ([.getCompare] ++ acalls ++ [.postCreatePR]
            ++ [.postLabels ["auto-backport", "needs-review"]]
            ++ [.postReviewers ["team-lead", "release-owner"]]),
          (["🔍 Comparing branches: " ++ cfg.base_branch ++ " ← "
              ++ cfg.head_branch,
            "✅ Found " ++ toString d.commits.length ++ " missing commits"]
           ++ aprints ++ ["✅ PR created: " ++ url] ++ [] ++ [])⟩ := by
    simp [main, hb, hcmp, hb0, hs2, hpub, add_labels, add_reviewers]
  have hac := ai_step_calls cfg env d.commits d.files
  rw [hs2] at hac
  simp only at hac
  refine ⟨by rw [hmain], ?_, ?_, ?_⟩
  · rw [hmain]
    exact ⟨.getPulls :: ([.getCompare] ++ acalls), by simp⟩
  · rw [hmain]
    rcases hac with hac | hac <;> subst hac <;>
      refine ⟨?_, ?_⟩ <;> simp [List.count_append, List.count_cons]
  · intro lres rres
    exact main_ignores_annotator_responses cfg env lres rres

/-- C9 witness: the concrete successful live run — exactly one labels
request and one reviewers request, and replacing both annotator outcomes
leaves the whole run result unchanged. -/
theorem annotator_best_effort_witness :
    (main cfg_ai_live env_run).outcome = .success
    ∧ (main cfg_ai_live env_run).calls.count
        (NetCall.postLabels ["auto-backport", "needs-review"]) = 1
    ∧ (main cfg_ai_live env_run).calls.count
        (NetCall.postReviewers ["team-lead", "release-owner"]) = 1
    ∧ main cfg_ai_live
        { env_run with labels := .ok (), reviewers := .error (.exn "boom") }
        = main cfg_ai_live env_run := by
  have h := annotator_best_effort cfg_ai_live env_run ⟨200, .ok 0⟩
    ⟨200, "", .ok ⟨[commit_ex, commit_ex2], [file_ex, file_ex2]⟩⟩
    ⟨[commit_ex, commit_ex2], [file_ex, file_ex2]⟩ commit_ex [commit_ex2]
    ((analyze_commits cfg_ai_live [commit_ex, commit_ex2]
        [file_ex, file_ex2]).toOption.getD "")
    (some "looks risky")
    ⟨201, "", .ok ⟨some "https://example.invalid/pr/7", some 7⟩⟩
    ⟨some "https://example.invalid/pr/7", some 7⟩
    "https://example.invalid/pr/7" 7
    rfl rfl rfl rfl rfl rfl rfl (by rfl) (by rfl) rfl (Or.inr rfl) rfl rfl rfl
  exact ⟨h.1, h.2.2.1.1, h.2.2.1.2, h.2.2.2 (.ok ()) (.error (.exn "boom"))⟩

/-! ### C10: the report builder requires the platform keys -/

/-- C10: the report builder succeeds exactly when every commit carries
`sha`, `commit.message` and `commit.author.name` and every file carries
`filename` (absent `additions`/`deletions` are tolerated and default to
0, as `spec_file_line` in the C2 theorem shows); on any other input it
raises a lookup error (`KeyError`), which aborts the run. -/
theorem report_requires_keys (cfg : Config) (commits : List CommitDict)
    (files : List FileDict) :
    ((analyze_commits cfg commits files).isOk = true
      ↔ (∀ c ∈ commits, wf_commit c) ∧ (∀ f ∈ files, wf_file f))
    ∧ (¬((∀ c ∈ commits, wf_commit c) ∧ (∀ f ∈ files, wf_file f)) →
        ∃ k, analyze_commits cfg commits files = .error (.keyError k)) := by
  refine ⟨analyze_commits_isOk cfg commits files, ?_⟩
  intro hnot
  rcases h : analyze_commits cfg commits files with e | s
  · obtain ⟨k, hk⟩ := analyze_commits_error cfg commits files e h
    exact ⟨k, by rw [hk]⟩
  · exact absurd ((analyze_commits_isOk cfg commits files).mp
      (by simp [h, Except.isOk, Except.toBool])) hnot

/-- C10 witness: a commit lacking `sha` makes the report builder fail. -/
theorem report_requires_keys_witness :
    (analyze_commits cfg_default [⟨none, some "msg", some "Ann"⟩] []).isOk
      = false := by
  obtain ⟨k, hk⟩ := (report_requires_keys cfg_default
    [⟨none, some "msg", some "Ann"⟩] []).2 (by decide)
  rw [hk]
  rfl

end Sync
